import Mathlib

/-!
Verification of `wayback-mcp` (`src/wayback_mcp/server.py`) against its
natural-language specification.

The server exposes four operations over the Internet Archive's HTTP APIs:
`get_snapshots` (CDX snapshot listing), `get_archived_page` (Wayback replay
fetch), a `wayback://{url}/{timestamp}` resource, and `search_items`
(archive.org Advanced Search).  Each operation performs exactly one network
fetch; everything around that fetch is pure data transformation.  We embed
those pure parts shallowly: the fetched payload (a decoded JSON value, or an
HTTP response) becomes an explicit argument of the embedded function, and the
function computes exactly what the Python code computes from it.
-/

set_option autoImplicit false

namespace Wayback

/-- A decoded JSON value, as produced by Python's `json` decoder: `None`,
booleans, numbers (modelled as `Int`; no claim depends on float semantics),
strings, lists, and string-keyed dicts (association list, insertion order). -/
inductive Json where
  | null
  | bool (b : Bool)
  | num (n : Int)
  | str (s : String)
  | arr (xs : List Json)
  | obj (kvs : List (String × Json))

mutual

/-- Python `repr` of a decoded JSON value, as used by `str` on containers.
Strings are rendered with single quotes (Python switches quote style only for
strings containing quote characters; no claim depends on that refinement). -/
def pyRepr : Json → String
  | .null => "None"
  | .bool true => "True"
  | .bool false => "False"
  | .num n => toString n
  | .str s => "'" ++ s ++ "'"
  | .arr xs => "[" ++ pyReprArr xs ++ "]"
  | .obj kvs => "\x7b" ++ pyReprObj kvs ++ "\x7d"

def pyReprArr : List Json → String
  | [] => ""
  | [x] => pyRepr x
  | x :: y :: xs => pyRepr x ++ ", " ++ pyReprArr (y :: xs)

def pyReprObj : List (String × Json) → String
  | [] => ""
  | [(k, v)] => "'" ++ k ++ "': " ++ pyRepr v
  | (k, v) :: kv :: kvs => "'" ++ k ++ "': " ++ pyRepr v ++ ", " ++ pyReprObj (kv :: kvs)

end

/-- Python `str()` of a decoded JSON value, as applied by an f-string
interpolation `f"...{x}..."`. -/
def pyStr : Json → String
  | .str s => s
  | j => pyRepr j

/-- `dict.get` on a Python dict modelled as an association list where a later
binding for the same key overwrites an earlier one (Python dict update
semantics). -/
def objGet : List (String × Json) → String → Option Json
  | [], _ => none
  | (k, v) :: t, key =>
    match objGet t key with
    | some r => some r
    | none => if k == key then some v else none

/-- Module-level constant `WAYBACK_ENDPOINT` of `server.py`. -/
def WAYBACK_ENDPOINT : String := "https://web.archive.org/web"

/-- Module-level constant `CDX_ENDPOINT` of `server.py`. -/
def CDX_ENDPOINT : String := "https://web.archive.org/cdx/search/cdx"

/-- Module-level constant `ADVANCED_SEARCH_ENDPOINT` of `server.py`. -/
def ADVANCED_SEARCH_ENDPOINT : String := "https://archive.org/advancedsearch.php"

/-! ## Advanced-Search query builder (`search_items`, query composition) -/

/-- The whitespace test of Python `str.strip()`, restricted to the ASCII
whitespace characters (Python additionally strips a handful of Unicode space
code points, which no claim exercises). -/
def isPyWhitespace (c : Char) : Bool :=
  c == ' ' || c == '\t' || c == '\n' || c == '\r' || c == '\x0b' || c == '\x0c'

/-- Python `str.strip()`: drop leading and trailing whitespace. -/
def pyStrip (s : String) : String :=
  String.mk (((s.data.dropWhile isPyWhitespace).reverse.dropWhile isPyWhitespace).reverse)

/-- The query composition of `search_items`:

    q = query.strip() if query else "*:*"
    if mediatype:
        q += f" AND mediatype:{mediatype}"
    if collection:
        q += f" AND collection:{collection}"

Python truthiness of a string is non-emptiness, and of an `Optional[str]` it
is `some s` with `s` non-empty. -/
def composeQuery (query : String) (mediatype collection : Option String) : String :=
  let q0 := if query.isEmpty then "*:*" else pyStrip query
  let q1 :=
    match mediatype with
    | some m => if m.isEmpty then q0 else q0 ++ " AND mediatype:" ++ m
    | none => q0
  match collection with
  | some c => if c.isEmpty then q1 else q1 ++ " AND collection:" ++ c
  | none => q1

/-- Result shape of `search_items`: `{"q": q, "rows": rows, "page": page,
"numFound": ..., "docs": ...}`. -/
structure SearchResult where
  q : String
  rows : Int
  page : Int
  numFound : Json
  docs : Json

/-- The response-unpacking of `search_items`:

    response = data.get("response", {}) if isinstance(data, dict) else {}
    ... response.get("numFound", 0) ... response.get("docs", [])

When `data` is a dict whose `"response"` value is present but is not itself a
dict, `response.get` raises `AttributeError` (modelled as `Except.error`);
that exception is not caught in `search_items`. -/
def searchResponsePart (data : Json) : Except Unit (Json × Json) :=
  match data with
  | .obj kvs =>
    match objGet kvs "response" with
    | some (.obj rkvs) =>
      .ok ((objGet rkvs "numFound").getD (.num 0), (objGet rkvs "docs").getD (.arr []))
    | some _ => .error ()
    | none => .ok (.num 0, .arr [])
  | _ => .ok (.num 0, .arr [])

/-- The pure part of `search_items`: composes `q` and shapes the result from
the already-fetched Advanced Search payload `data`. -/
def search_items (query : String) (mediatype collection : Option String)
    (rows page : Int) (data : Json) : Except Unit SearchResult :=
  let q := composeQuery query mediatype collection
  match searchResponsePart data with
  | .ok (nf, docs) => .ok { q := q, rows := rows, page := page, numFound := nf, docs := docs }
  | .error e => .error e

/-- `True` exactly when the Advanced Search payload is not a mapping or lacks
the `"response"` key. -/
def lacksResponse (data : Json) : Bool :=
  match data with
  | .obj kvs => (objGet kvs "response").isNone
  | _ => true

/-! ## CDX row normalizer (`get_snapshots`) -/

/-- One normalized snapshot, the dict appended to `results` in
`get_snapshots`.  The six extracted cells keep whatever JSON value the row
held; `archived_url` is the f-string `f"{WAYBACK_ENDPOINT}/{ts}/{orig}"`. -/
structure SnapshotRecord where
  timestamp : Json
  original_url : Json
  mimetype : Json
  statuscode : Json
  digest : Json
  length : Json
  archived_url : String

/-- Result shape of `get_snapshots`:
`{"url": url, "snapshots": results, "count": len(results)}`. -/
structure SnapshotsResult where
  url : String
  snapshots : List SnapshotRecord
  count : Nat

/-- `True` when the JSON value is the kind of header cell `j.isStr name`
equals the Python string `name` (only `str` cells can; no other decoded JSON
value compares equal to a `str` in Python). -/
def Json.isStr (j : Json) (name : String) : Bool :=
  match j with
  | .str s => s == name
  | _ => false

/-- The `.get(name, default)` of the dict comprehension
`index_by_name = {name: idx for idx, name in enumerate(headers)}`: a later
occurrence of the same key overwrites an earlier one, so the lookup returns
the index of the **last** header cell equal to `name`, or `none`. -/
def lastIndexOfName : List Json → String → Option Nat
  | [], _ => none
  | h :: t, name =>
    match lastIndexOfName t name with
    | some i => some (i + 1)
    | none => if h.isStr name then some 0 else none

/-- `index_by_name.get(name, dflt)`. -/
def getIdx (hcells : List Json) (name : String) (dflt : Nat) : Nat :=
  (lastIndexOfName hcells name).getD dflt

/-- `True` exactly when some header cell equals the Python string `name`
(i.e. `name in index_by_name`). -/
def hasName (hcells : List Json) (name : String) : Bool :=
  hcells.any fun c => c.isStr name

/-- `True` when a header cell is hashable in Python (decoded JSON lists and
dicts are unhashable; building `index_by_name` over such a header raises
`TypeError`). -/
def hashableCell : Json → Bool
  | .arr _ => false
  | .obj _ => false
  | _ => true

/-- `enumerate(headers)` as used by the `index_by_name` comprehension:
enumerating a list yields its cells, enumerating a string yields its
characters (length-1 strings), enumerating a dict yields its keys; `None`,
booleans and numbers are not iterable, and an unhashable cell cannot be a
dict key — both raise `TypeError`, which `get_snapshots` does not catch
(modelled as `none`). -/
def headerCells : Json → Option (List Json)
  | .arr xs => if xs.all hashableCell then some xs else none
  | .str s => some (s.data.map fun c => .str (String.mk [c]))
  | .obj kvs => some (kvs.map fun kv => .str kv.1)
  | _ => none

/-- `row[i]` inside the per-row `try` block: indexing a list by a
non-negative in-range index yields the cell (out of range raises
`IndexError`); indexing a string yields a one-character string; subscripting
a dict by an `int` raises `KeyError` (decoded JSON dict keys are strings),
and `None`/booleans/numbers raise `TypeError`.  Every raise inside the row
loop is caught, so all failures are `none`. -/
def extractField (row : Json) (i : Nat) : Option Json :=
  match row with
  | .arr xs => xs.get? i
  | .str s => (s.data.get? i).map fun c => .str (String.mk [c])
  | _ => none

/-- The body of the row loop of `get_snapshots`: extract the six fields
(falling back to fixed positions 1–6 when the header lacks the name), build
`archived_url`, and assemble the record; any raise skips the row (`none`). -/
def parseRow (hcells : List Json) (row : Json) : Option SnapshotRecord := do
  let ts ← extractField row (getIdx hcells "timestamp" 1)
  let orig ← extractField row (getIdx hcells "original" 2)
  let mime ← extractField row (getIdx hcells "mimetype" 3)
  let status ← extractField row (getIdx hcells "statuscode" 4)
  let digest ← extractField row (getIdx hcells "digest" 5)
  let len ← extractField row (getIdx hcells "length" 6)
  some { timestamp := ts, original_url := orig, mimetype := mime,
         statuscode := status, digest := digest, length := len,
         archived_url := WAYBACK_ENDPOINT ++ "/" ++ pyStr ts ++ "/" ++ pyStr orig }

/-- The pure part of `get_snapshots`, applied to the already-fetched CDX
payload `raw`:

    if not isinstance(raw, list) or not raw:
        return {"url": url, "snapshots": [], "count": 0}
    headers = raw[0]; rows = raw[1:]
    index_by_name = {name: idx for idx, name in enumerate(headers)}
    ... per-row try/except loop ...
    return {"url": url, "snapshots": results, "count": len(results)}

`Except.error` marks the one uncaught raise: a header row over which the
`index_by_name` comprehension itself raises `TypeError`. -/
def get_snapshots (url : String) (raw : Json) : Except Unit SnapshotsResult :=
  match raw with
  | .arr [] => .ok { url := url, snapshots := [], count := 0 }
  | .arr (header :: rows) =>
    match headerCells header with
    | some hcells =>
      let results := rows.filterMap fun row => parseRow hcells row
      .ok { url := url, snapshots := results, count := results.length }
    | none => .error ()
  | _ => .ok { url := url, snapshots := [], count := 0 }

/-- `True` exactly when the CDX payload is a non-empty list (the guard
`isinstance(raw, list) and raw`). -/
def isNonEmptyList : Json → Bool
  | .arr (_ :: _) => true
  | _ => false

/-! ## Archived-URL formatter, `get_archived_page` and the resource -/

/-- The already-received upstream HTTP response as `_fetch_text` returns it
(`_fetch_text` never raises for status: it does not call
`raise_for_status`).  `text` models `resp.text`-or-raise: `some s` when the
body decodes as text `s`, `none` when decoding raises (the callers catch that
raise and use `None`). -/
structure HttpResponse where
  status_code : Nat
  headers : List (String × String)
  text : Option String

/-- Case-insensitive header lookup with default, modelling
`resp.headers.get(key, dflt)` on `httpx.Headers`. -/
def headersGetD (headers : List (String × String)) (key dflt : String) : String :=
  match headers.find? (fun kv => kv.1.toLower == key.toLower) with
  | some kv => kv.2
  | none => dflt

/-- Result shape of `get_archived_page`. -/
structure ArchivedPageResult where
  url : String
  timestamp : String
  archived_url : String
  status_code : Nat
  headers : List (String × String)
  text : Option String

/-- The URL built by `get_archived_page` and passed to `_fetch_text`:

    mode = "id_/" if original else ""
    archived_url = f"{WAYBACK_ENDPOINT}/{timestamp}/{mode}{url}"
-/
def archivedPageUrl (url timestamp : String) (original : Bool) : String :=
  let mode := if original then "id_/" else ""
  WAYBACK_ENDPOINT ++ "/" ++ timestamp ++ "/" ++ mode ++ url

/-- The pure part of `get_archived_page`: `resp` is the response from the
single GET of `archivedPageUrl url timestamp original`. -/
def get_archived_page (url timestamp : String) (original : Bool)
    (resp : HttpResponse) : ArchivedPageResult :=
  { url := url, timestamp := timestamp,
    archived_url := archivedPageUrl url timestamp original,
    status_code := resp.status_code, headers := resp.headers, text := resp.text }

/-- One content block of the `wayback://{url}/{timestamp}` resource. -/
structure ResourceBlock where
  uri : String
  mimeType : String
  text : Option String

/-- The URL built by `wayback_resource` and passed to `_fetch_text`:
`f"{WAYBACK_ENDPOINT}/{timestamp}/{url}"` — no `id_` mode. -/
def waybackResourceUrl (url timestamp : String) : String :=
  WAYBACK_ENDPOINT ++ "/" ++ timestamp ++ "/" ++ url

/-- The pure part of `wayback_resource`: `resp` is the response from the
single GET of `waybackResourceUrl url timestamp`. -/
def wayback_resource (url timestamp : String) (resp : HttpResponse) :
    List ResourceBlock :=
  let archived_url := waybackResourceUrl url timestamp
  let mime := headersGetD resp.headers "content-type" "text/html"
  [{ uri := archived_url, mimeType := mime, text := resp.text }]

/-- The URI template of the resource: `wayback://{url}/{timestamp}`, the
input URI the host used to address the resource. -/
def resourceInputUri (url timestamp : String) : String :=
  "wayback://" ++ url ++ "/" ++ timestamp

/-! ## Supporting lemmas -/

theorem strAppendMerge (s u a b c : String) (h : a ++ b = c) :
    s ++ a ++ b ++ u = s ++ c ++ u := by
  rw [String.append_assoc s a b, h]

theorem isStr_eq_true_iff (j : Json) (name : String) :
    j.isStr name = true ↔ j = .str name := by
  cases j <;> simp [Json.isStr]

theorem lastIndexOfName_isSome (hs : List Json) (name : String) :
    (lastIndexOfName hs name).isSome = hasName hs name := by
  induction hs with
  | nil => rfl
  | cons h t ih =>
    simp only [lastIndexOfName, hasName, List.any_cons]
    cases hlt : lastIndexOfName t name with
    | some i =>
      simp only [hasName, hlt, Option.isSome_some] at ih ⊢
      simp [← ih]
    | none =>
      simp only [hasName, hlt, Option.isSome_none] at ih ⊢
      cases hi : h.isStr name <;> simp [← ih]

theorem lastIndexOfName_get (hs : List Json) (name : String) (i : Nat)
    (h : lastIndexOfName hs name = some i) : hs.get? i = some (.str name) := by
  induction hs generalizing i with
  | nil => simp [lastIndexOfName] at h
  | cons hd t ih =>
    simp only [lastIndexOfName] at h
    cases hlt : lastIndexOfName t name with
    | some j =>
      rw [hlt] at h
      cases h
      simpa using ih j hlt
    | none =>
      rw [hlt] at h
      cases hi : hd.isStr name with
      | true =>
        rw [hi] at h
        simp only [if_true] at h
        cases h
        simpa using (isStr_eq_true_iff hd name).mp hi
      | false => rw [hi] at h; simp at h

theorem hasName_of_get? (hs : List Json) (name : String) (j : Nat)
    (h : hs.get? j = some (.str name)) : hasName hs name = true := by
  induction hs generalizing j with
  | nil => simp at h
  | cons hd t ih =>
    cases j with
    | zero =>
      simp only [List.get?] at h
      cases h
      simp [hasName, Json.isStr]
    | succ m =>
      simp only [List.get?] at h
      have := ih m h
      simp only [hasName, List.any_cons] at this ⊢
      simp [this]

theorem lastIndexOfName_maximal (hs : List Json) (name : String) (i j : Nat)
    (h : lastIndexOfName hs name = some i) (hj : hs.get? j = some (.str name)) :
    j ≤ i := by
  induction hs generalizing i j with
  | nil => simp at hj
  | cons hd t ih =>
    simp only [lastIndexOfName] at h
    cases hlt : lastIndexOfName t name with
    | some k =>
      rw [hlt] at h
      cases h
      cases j with
      | zero => exact Nat.zero_le _
      | succ m =>
        simp only [List.get?] at hj
        exact Nat.succ_le_succ (ih k m hlt hj)
    | none =>
      rw [hlt] at h
      cases j with
      | zero => exact Nat.zero_le _
      | succ m =>
        simp only [List.get?] at hj
        have hmem := hasName_of_get? t name m hj
        have := lastIndexOfName_isSome t name
        rw [hlt, hmem] at this
        simp at this

theorem parseRow_eq_some (hcells : List Json) (row : Json) (rec : SnapshotRecord)
    (h : parseRow hcells row = some rec) :
    extractField row (getIdx hcells "timestamp" 1) = some rec.timestamp ∧
    extractField row (getIdx hcells "original" 2) = some rec.original_url ∧
    extractField row (getIdx hcells "mimetype" 3) = some rec.mimetype ∧
    extractField row (getIdx hcells "statuscode" 4) = some rec.statuscode ∧
    extractField row (getIdx hcells "digest" 5) = some rec.digest ∧
    extractField row (getIdx hcells "length" 6) = some rec.length ∧
    rec.archived_url =
      WAYBACK_ENDPOINT ++ "/" ++ pyStr rec.timestamp ++ "/" ++ pyStr rec.original_url := by
  cases hts : extractField row (getIdx hcells "timestamp" 1) with
  | none => simp [parseRow, hts] at h
  | some ts =>
  cases horig : extractField row (getIdx hcells "original" 2) with
  | none => simp [parseRow, hts, horig] at h
  | some orig =>
  cases hmime : extractField row (getIdx hcells "mimetype" 3) with
  | none => simp [parseRow, hts, horig, hmime] at h
  | some mime =>
  cases hstatus : extractField row (getIdx hcells "statuscode" 4) with
  | none => simp [parseRow, hts, horig, hmime, hstatus] at h
  | some status =>
  cases hdigest : extractField row (getIdx hcells "digest" 5) with
  | none => simp [parseRow, hts, horig, hmime, hstatus, hdigest] at h
  | some digest =>
  cases hlen : extractField row (getIdx hcells "length" 6) with
  | none => simp [parseRow, hts, horig, hmime, hstatus, hdigest, hlen] at h
  | some len =>
    simp only [parseRow, hts, horig, hmime, hstatus, hdigest, hlen, bind,
      Option.bind_eq_bind, Option.some_bind, Option.some.injEq] at h
    subst h
    exact ⟨rfl, rfl, rfl, rfl, rfl, rfl, rfl⟩

/-! ## Claim theorems -/

/-- C1 (counterexample): the claim says `search_items(query="", mediatype="texts")`
composes `q = "*:*AND mediatype:texts"` with no separating space before `AND`.
The code appends `f" AND mediatype:{mediatype}"`, whose leading space makes the
composed query `"*:* AND mediatype:texts"`, so the claimed byte string is not
produced. -/
theorem c1_no_space_counterexample :
    composeQuery "" (some "texts") none ≠ "*:*AND mediatype:texts" := by decide

/-- C1 (amended): for `search_items` invoked with `query = ""` and
`mediatype = "texts"`, the composed query string `q` returned in the result is
exactly `"*:* AND mediatype:texts"` (with a single separating space before
`AND`), byte for byte. -/
theorem c1_composed_query (rows page : Int) (data : Json) (res : SearchResult)
    (h : search_items "" (some "texts") none rows page data = .ok res) :
    res.q = "*:* AND mediatype:texts" := by
  unfold search_items at h
  cases hsp : searchResponsePart data with
  | error e => rw [hsp] at h; cases h
  | ok p =>
    rw [hsp] at h
    obtain ⟨nf, docs⟩ := p
    cases h
    rfl

/-- C1 witness: the amended theorem applied to a concrete upstream payload. -/
theorem c1_composed_query_witness :
    ({ q := "*:* AND mediatype:texts", rows := 50, page := 1,
       numFound := Json.num 0, docs := Json.arr [] } : SearchResult).q =
      "*:* AND mediatype:texts" :=
  c1_composed_query 50 1 (Json.obj []) _ rfl

/-- C2 (counterexample): the claim says every empty-or-whitespace-only query
gets base `"*:*"`.  A whitespace-only query such as `" "` is truthy in Python,
so the code takes the `query.strip()` branch and the base becomes `""`, not
`"*:*"`; with `mediatype="texts"` the whole composed query is then
`" AND mediatype:texts"`. -/
theorem c2_whitespace_counterexample :
    composeQuery " " none none ≠ "*:*" ∧
    composeQuery " " (some "texts") none = " AND mediatype:texts" :=
  ⟨by decide, rfl⟩

/-- C2 (amended): `search_items` uses `"*:*"` as the base query (before any
mediatype/collection clauses are appended) only when the caller's query is the
empty string; a non-empty query — including one consisting only of whitespace —
is stripped and used as the base as-is. -/
theorem c2_base_query (query m c : String)
    (hm : m.isEmpty = false) (hc : c.isEmpty = false) :
    composeQuery query none none = (if query = "" then "*:*" else pyStrip query) ∧
    composeQuery query (some m) (some c) =
      composeQuery query none none ++ " AND mediatype:" ++ m
        ++ " AND collection:" ++ c := by
  constructor
  · unfold composeQuery
    by_cases hq : query = ""
    · have he : ("" : String).isEmpty = true := rfl
      simp [hq, he]
    · have he : query.isEmpty = false := by
        rw [← Bool.not_eq_true]
        intro hh
        exact hq ((String.isEmpty_iff query).mp hh)
      simp [he, hq]
  · unfold composeQuery
    simp [hm, hc]

/-- C2 witness: the amended theorem applied to the whitespace-only query `" "`
with both filters supplied. -/
theorem c2_base_query_witness :
    composeQuery " " none none = (if (" " : String) = "" then "*:*" else pyStrip " ") ∧
    composeQuery " " (some "texts") (some "web") =
      composeQuery " " none none ++ " AND mediatype:" ++ "texts"
        ++ " AND collection:" ++ "web" :=
  c2_base_query " " "texts" "web" rfl rfl

/-- C5: whenever the CDX payload is not a non-empty list (not a list at all, or
the empty list), `get_snapshots` returns `{url, snapshots: [], count: 0}`
without raising. -/
theorem c5_empty_payload (url : String) (raw : Json)
    (h : isNonEmptyList raw = false) :
    get_snapshots url raw = .ok { url := url, snapshots := [], count := 0 } := by
  cases raw with
  | arr xs =>
    cases xs with
    | nil => rfl
    | cons a t => simp [isNonEmptyList] at h
  | null => rfl
  | bool b => rfl
  | num n => rfl
  | str s => rfl
  | obj kvs => rfl

/-- C5 witness: the theorem applied to the empty list and to a non-list
payload. -/
theorem c5_empty_payload_witness :
    get_snapshots "https://example.com" (Json.arr []) =
      .ok { url := "https://example.com", snapshots := [], count := 0 } ∧
    get_snapshots "https://example.com" Json.null =
      .ok { url := "https://example.com", snapshots := [], count := 0 } :=
  ⟨c5_empty_payload "https://example.com" (Json.arr []) rfl,
   c5_empty_payload "https://example.com" Json.null rfl⟩

/-- C7: `get_archived_page` builds `archived_url` as
`{WAYBACK_ENDPOINT}/{timestamp}/id_/{url}` when `original` is true and
`{WAYBACK_ENDPOINT}/{timestamp}/{url}` when it is false; in particular
`get_archived_page(url="example.com", timestamp="20200101000000",
original=True)` yields
`"https://web.archive.org/web/20200101000000/id_/example.com"`. -/
theorem c7_archived_page_url (url timestamp : String) (resp : HttpResponse) :
    (get_archived_page url timestamp true resp).archived_url =
      WAYBACK_ENDPOINT ++ "/" ++ timestamp ++ "/id_/" ++ url ∧
    (get_archived_page url timestamp false resp).archived_url =
      WAYBACK_ENDPOINT ++ "/" ++ timestamp ++ "/" ++ url ∧
    (get_archived_page "example.com" "20200101000000" true resp).archived_url =
      "https://web.archive.org/web/20200101000000/id_/example.com" := by
  refine ⟨?_, ?_, rfl⟩
  · exact strAppendMerge (WAYBACK_ENDPOINT ++ "/" ++ timestamp) url "/" "id_/" "/id_/" rfl
  · exact strAppendMerge (WAYBACK_ENDPOINT ++ "/" ++ timestamp) url "/" "" "/" rfl

/-- C8: for every upstream response — any status, including 404 and other
non-2xx — `get_archived_page` returns a total result whose `status_code` is
the upstream status and whose `text` is the decoded body when decodable and
null (`none`) otherwise; nothing is raised for status (`_fetch_text` performs
no `raise_for_status`). -/
theorem c8_status_and_text_surfaced (url timestamp : String) (original : Bool)
    (resp : HttpResponse) :
    (get_archived_page url timestamp original resp).status_code = resp.status_code ∧
    (get_archived_page url timestamp original resp).text = resp.text ∧
    (get_archived_page url timestamp original
        { status_code := 404, headers := resp.headers,
          text := some "Not Found" }).status_code = 404 ∧
    (get_archived_page url timestamp original
        { status_code := 404, headers := resp.headers,
          text := some "Not Found" }).text = some "Not Found" :=
  ⟨rfl, rfl, rfl, rfl⟩

/-- C9: whenever the Advanced Search payload is not a mapping or lacks the
`"response"` key, `search_items` still succeeds, with `numFound = 0` and
`docs = []`. -/
theorem c9_missing_response_container (query : String) (mt coll : Option String)
    (rows page : Int) (data : Json) (h : lacksResponse data = true) :
    search_items query mt coll rows page data =
      .ok { q := composeQuery query mt coll, rows := rows, page := page,
            numFound := .num 0, docs := .arr [] } := by
  cases data with
  | obj kvs =>
    simp only [lacksResponse] at h
    simp only [search_items, searchResponsePart]
    cases hg : objGet kvs "response" with
    | some v => rw [hg] at h; simp at h
    | none => rfl
  | null => rfl
  | bool b => rfl
  | num n => rfl
  | str s => rfl
  | arr xs => rfl

/-- C9 witness: the theorem applied to a non-mapping payload and to a mapping
without a `"response"` key. -/
theorem c9_missing_response_container_witness :
    search_items "cats" none none 10 2 (Json.num 3) =
      .ok { q := "cats", rows := 10, page := 2,
            numFound := Json.num 0, docs := Json.arr [] } ∧
    search_items "cats" none none 10 2 (Json.obj [("foo", Json.null)]) =
      .ok { q := "cats", rows := 10, page := 2,
            numFound := Json.num 0, docs := Json.arr [] } :=
  ⟨c9_missing_response_container "cats" none none 10 2 (Json.num 3) rfl,
   c9_missing_response_container "cats" none none 10 2 (Json.obj [("foo", Json.null)]) rfl⟩

/-- C10: the `wayback://{url}/{timestamp}` resource always fetches the plain
replay URL `{WAYBACK_ENDPOINT}/{timestamp}/{url}` — never the `id_` form —
and the `uri` of its single content block is that replay URL, which is never
the input resource URI `wayback://{url}/{timestamp}`. -/
theorem c10_resource_plain_replay (url timestamp : String) (resp : HttpResponse) :
    (wayback_resource url timestamp resp).map (fun b => b.uri) =
      [waybackResourceUrl url timestamp] ∧
    waybackResourceUrl url timestamp =
      WAYBACK_ENDPOINT ++ "/" ++ timestamp ++ "/" ++ url ∧
    waybackResourceUrl url timestamp ≠ archivedPageUrl url timestamp true ∧
    waybackResourceUrl url timestamp ≠ resourceInputUri url timestamp := by
  have hW : WAYBACK_ENDPOINT.length = 27 := rfl
  have hs : ("/" : String).length = 1 := rfl
  have hid : ("id_/" : String).length = 4 := rfl
  have hw10 : ("wayback://" : String).length = 10 := rfl
  refine ⟨rfl, rfl, ?_, ?_⟩
  · intro h
    have hl := congrArg String.length h
    simp [waybackResourceUrl, archivedPageUrl, String.length_append,
      hW, hs, hid] at hl
  · intro h
    have hl := congrArg String.length h
    simp [waybackResourceUrl, resourceInputUri, String.length_append,
      hW, hs, hw10] at hl
    omega

/-- C3: when `parseRow` accepts a data row, every field comes from the cell at
its resolved index, where the resolution uses the header's name→index mapping
(the index of the last header cell equal to the name) when the name appears in
the header, and the fixed fallback positions 1–6 otherwise; in particular,
when the header omits `digest`, the record's digest comes from column 5. -/
theorem c3_field_resolution (hcells row : List Json) (rec : SnapshotRecord)
    (h : parseRow hcells (.arr row) = some rec) :
    ((∀ name dflt, hasName hcells name = false → getIdx hcells name dflt = dflt) ∧
     (∀ name dflt, hasName hcells name = true → ∃ i, getIdx hcells name dflt = i ∧
        hcells.get? i = some (.str name) ∧
        ∀ j, hcells.get? j = some (.str name) → j ≤ i)) ∧
    row.get? (getIdx hcells "timestamp" 1) = some rec.timestamp ∧
    row.get? (getIdx hcells "original" 2) = some rec.original_url ∧
    row.get? (getIdx hcells "mimetype" 3) = some rec.mimetype ∧
    row.get? (getIdx hcells "statuscode" 4) = some rec.statuscode ∧
    row.get? (getIdx hcells "digest" 5) = some rec.digest ∧
    row.get? (getIdx hcells "length" 6) = some rec.length ∧
    (hasName hcells "digest" = false → row.get? 5 = some rec.digest) := by
  obtain ⟨hts, horig, hmime, hstatus, hdigest, hlen, _⟩ := parseRow_eq_some _ _ _ h
  have hdef : ∀ name dflt, hasName hcells name = false → getIdx hcells name dflt = dflt := by
    intro name dflt hn
    have hiso := lastIndexOfName_isSome hcells name
    cases hlo : lastIndexOfName hcells name with
    | none => unfold getIdx; rw [hlo]; rfl
    | some i => rw [hlo, hn] at hiso; simp at hiso
  have hpres : ∀ name dflt, hasName hcells name = true → ∃ i, getIdx hcells name dflt = i ∧
      hcells.get? i = some (.str name) ∧
      ∀ j, hcells.get? j = some (.str name) → j ≤ i := by
    intro name dflt hn
    have hiso := lastIndexOfName_isSome hcells name
    cases hlo : lastIndexOfName hcells name with
    | none => rw [hlo, hn] at hiso; simp at hiso
    | some i =>
      refine ⟨i, ?_, lastIndexOfName_get _ _ _ hlo,
        fun j hj => lastIndexOfName_maximal _ _ _ _ hlo hj⟩
      unfold getIdx
      rw [hlo]
      rfl
  refine ⟨⟨hdef, hpres⟩, hts, horig, hmime, hstatus, hdigest, hlen, ?_⟩
  intro hnd
  have h5 := hdef "digest" 5 hnd
  rw [← h5]
  exact hdigest

/-- C3 witness: a header that names `length` at position 5 but omits `digest`;
the accepted row's digest is taken from the fixed fallback column 5. -/
theorem c3_field_resolution_witness :
    ([.str "com,example)/", .str "20200101000000", .str "http://example.com/",
      .str "text/html", .str "200", .str "ABCD", .str "1234"] : List Json).get? 5 =
      some (.str "ABCD") :=
  (c3_field_resolution
    [.str "urlkey", .str "timestamp", .str "original", .str "mimetype",
     .str "statuscode", .str "length"]
    [.str "com,example)/", .str "20200101000000", .str "http://example.com/",
     .str "text/html", .str "200", .str "ABCD", .str "1234"]
    { timestamp := .str "20200101000000", original_url := .str "http://example.com/",
      mimetype := .str "text/html", statuscode := .str "200",
      digest := .str "ABCD", length := .str "ABCD",
      archived_url := "https://web.archive.org/web/20200101000000/http://example.com/" }
    rfl).2.2.2.2.2.2.2 rfl

/-- C4: for a non-empty CDX list payload, a data row rejected during field
extraction is skipped individually: `get_snapshots` still succeeds, its
records are those of the remaining rows in upstream order, and `count` counts
only the valid rows. -/
theorem c4_malformed_row_skipped (url : String) (header : Json) (hcells : List Json)
    (pre post : List Json) (bad : Json)
    (hh : headerCells header = some hcells) (hbad : parseRow hcells bad = none) :
    get_snapshots url (.arr (header :: (pre ++ bad :: post))) =
      .ok { url := url,
            snapshots := (pre ++ post).filterMap fun row => parseRow hcells row,
            count := ((pre ++ post).filterMap fun row => parseRow hcells row).length } := by
  simp only [get_snapshots]
  rw [hh]
  simp [List.filterMap_append, List.filterMap_cons, hbad]

/-- C4 witness: a payload with a header row, one good row, one row with too
few columns, and another good row; the malformed row is dropped and the two
good rows survive in order, with `count = 2`. -/
theorem c4_malformed_row_skipped_witness :
    get_snapshots "example.com"
      (.arr [.arr [.str "urlkey", .str "timestamp", .str "original", .str "mimetype",
                   .str "statuscode", .str "digest", .str "length"],
             .arr [.str "com,example)/", .str "20200101000000", .str "http://example.com/",
                   .str "text/html", .str "200", .str "AAAA", .str "100"],
             .arr [.str "x"],
             .arr [.str "com,example)/", .str "20210101000000", .str "https://example.com/",
                   .str "text/html", .str "200", .str "BBBB", .str "200"]]) =
      .ok { url := "example.com",
            snapshots :=
              [{ timestamp := .str "20200101000000", original_url := .str "http://example.com/",
                 mimetype := .str "text/html", statuscode := .str "200",
                 digest := .str "AAAA", length := .str "100",
                 archived_url := "https://web.archive.org/web/20200101000000/http://example.com/" },
               { timestamp := .str "20210101000000", original_url := .str "https://example.com/",
                 mimetype := .str "text/html", statuscode := .str "200",
                 digest := .str "BBBB", length := .str "200",
                 archived_url := "https://web.archive.org/web/20210101000000/https://example.com/" }],
            count := 2 } :=
  c4_malformed_row_skipped "example.com"
    (.arr [.str "urlkey", .str "timestamp", .str "original", .str "mimetype",
           .str "statuscode", .str "digest", .str "length"])
    [.str "urlkey", .str "timestamp", .str "original", .str "mimetype",
     .str "statuscode", .str "digest", .str "length"]
    [.arr [.str "com,example)/", .str "20200101000000", .str "http://example.com/",
           .str "text/html", .str "200", .str "AAAA", .str "100"]]
    [.arr [.str "com,example)/", .str "20210101000000", .str "https://example.com/",
           .str "text/html", .str "200", .str "BBBB", .str "200"]]
    (.arr [.str "x"]) rfl rfl

/-- C6: every snapshot record produced by `get_snapshots` satisfies the
invariant `archived_url = {WAYBACK_ENDPOINT}/{timestamp}/{original_url}`,
with the record's own `timestamp` and `original_url` interpolated. -/
theorem c6_archived_url_invariant (url : String) (raw : Json)
    (res : SnapshotsResult) (rec : SnapshotRecord)
    (hres : get_snapshots url raw = .ok res) (hmem : rec ∈ res.snapshots) :
    rec.archived_url =
      WAYBACK_ENDPOINT ++ "/" ++ pyStr rec.timestamp ++ "/" ++ pyStr rec.original_url := by
  cases raw with
  | arr xs =>
    cases xs with
    | nil =>
      cases hres
      exact absurd hmem (by simp)
    | cons header rows =>
      simp only [get_snapshots] at hres
      cases hh : headerCells header with
      | none => rw [hh] at hres; cases hres
      | some hcells =>
        rw [hh] at hres
        cases hres
        simp only [List.mem_filterMap] at hmem
        obtain ⟨r, _, hr⟩ := hmem
        exact (parseRow_eq_some _ _ _ hr).2.2.2.2.2.2
  | null => cases hres; exact absurd hmem (by simp)
  | bool b => cases hres; exact absurd hmem (by simp)
  | num n => cases hres; exact absurd hmem (by simp)
  | str s => cases hres; exact absurd hmem (by simp)
  | obj kvs => cases hres; exact absurd hmem (by simp)

/-- C6 witness: the invariant instantiated on the record produced from a
concrete CDX payload. -/
theorem c6_archived_url_invariant_witness :
    "https://web.archive.org/web/20200101000000/http://example.com/" =
      WAYBACK_ENDPOINT ++ "/" ++ pyStr (.str "20200101000000")
        ++ "/" ++ pyStr (.str "http://example.com/") :=
  c6_archived_url_invariant "example.com"
    (.arr [.arr [.str "urlkey", .str "timestamp", .str "original", .str "mimetype",
                 .str "statuscode", .str "digest", .str "length"],
           .arr [.str "com,example)/", .str "20200101000000", .str "http://example.com/",
                 .str "text/html", .str "200", .str "AAAA", .str "100"]])
    { url := "example.com",
      snapshots :=
        [{ timestamp := .str "20200101000000", original_url := .str "http://example.com/",
           mimetype := .str "text/html", statuscode := .str "200",
           digest := .str "AAAA", length := .str "100",
           archived_url := "https://web.archive.org/web/20200101000000/http://example.com/" }],
      count := 1 }
    { timestamp := .str "20200101000000", original_url := .str "http://example.com/",
      mimetype := .str "text/html", statuscode := .str "200",
      digest := .str "AAAA", length := .str "100",
      archived_url := "https://web.archive.org/web/20200101000000/http://example.com/" }
    rfl (List.Mem.head _)

end Wayback
